import Mathlib

/-!
Verification of the skotch physics subsystem.

The embedding below translates the physics source (vector utilities,
`SphereCollider`, `SimplePhysicsBody`, `stepPhysics`) into pure Lean
functions over `ℝ`.  Mutation in the source becomes explicit state
passing: `integrate` returns the updated body and position, and the
collision pass threads the mesh list through each pair resolution in
the same i < j order as the source's nested loops.
-/

/-- Vector of three number components, translating the source's
`VecLike = { x: number; y: number; z: number }`. -/
structure VecLike where
  x : ℝ
  y : ℝ
  z : ℝ

/-- Componentwise vector addition, translating the source's `add`. -/
def add (a b : VecLike) : VecLike :=
  ⟨a.x + b.x, a.y + b.y, a.z + b.z⟩

/-- Componentwise vector subtraction, translating the source's `sub`. -/
def sub (a b : VecLike) : VecLike :=
  ⟨a.x - b.x, a.y - b.y, a.z - b.z⟩

/-- Scalar multiplication, translating the source's `mulScalar`. -/
def mulScalar (a : VecLike) (s : ℝ) : VecLike :=
  ⟨a.x * s, a.y * s, a.z * s⟩

/-- Euclidean length, translating the source's `length`
(`Math.sqrt(v.x*v.x + v.y*v.y + v.z*v.z)`). -/
noncomputable def length (v : VecLike) : ℝ :=
  Real.sqrt (v.x * v.x + v.y * v.y + v.z * v.z)

/-- Sphere collision shape, translating the source's `SphereCollider`
(radius plus a local-space center offset, default zero). -/
structure SphereCollider where
  radius : ℝ
  offset : VecLike := ⟨0, 0, 0⟩

/-- Linear-motion state of a body, translating the source's
`SimplePhysicsBody` (velocity and accumulated force start at zero). -/
structure SimplePhysicsBody where
  velocity : VecLike := ⟨0, 0, 0⟩
  mass : ℝ
  accumulatedForce : VecLike := ⟨0, 0, 0⟩

/-- Force accumulation, translating `SimplePhysicsBody.applyForce`:
the force is added to the pending accumulator, velocity untouched. -/
def SimplePhysicsBody.applyForce (b : SimplePhysicsBody) (force : VecLike) :
    SimplePhysicsBody :=
  { b with accumulatedForce := add b.accumulatedForce force }

/-- Semi-implicit Euler step, translating `SimplePhysicsBody.integrate`.
The source mutates `this.velocity`, the caller's `position`, and resets
`this.accumulatedForce`; here the updated body and position are returned.
A non-positive `dt` returns everything unchanged, exactly as the source's
early `if (dt <= 0) return;`. -/
noncomputable def SimplePhysicsBody.integrate (b : SimplePhysicsBody) (position : VecLike)
    (dt : ℝ) : SimplePhysicsBody × VecLike :=
  if dt ≤ 0 then (b, position)
  else
    let ax := b.accumulatedForce.x / b.mass
    let ay := b.accumulatedForce.y / b.mass
    let az := b.accumulatedForce.z / b.mass
    let vx := b.velocity.x + ax * dt
    let vy := b.velocity.y + ay * dt
    let vz := b.velocity.z + az * dt
    ({ velocity := ⟨vx, vy, vz⟩, mass := b.mass, accumulatedForce := ⟨0, 0, 0⟩ },
     ⟨position.x + vx * dt, position.y + vy * dt, position.z + vz * dt⟩)

/-- Attachment record, translating the `userData.physics = { body, collider }`
bag set up by `attachPhysics`; the collision pass probes both fields, so both
are optional here as in the loosely-typed source. -/
structure Physics where
  body : Option SimplePhysicsBody
  collider : Option SphereCollider

/-- Entity as seen by the physics step: a mutable `transform.position`
and the optional `userData.physics` attachment. -/
structure Mesh where
  position : VecLike
  physics : Option Physics := none

/-- Restitution coefficient, the source's hardcoded `const restitution = 0.5`. -/
def restitution : ℝ := 0.5

/-- World-space collider center, translating
`add(X.transform.position, collider.offset)`. -/
def worldCenter (m : Mesh) (c : SphereCollider) : VecLike :=
  add m.position c.offset

/-- Center-to-center delta for a pair, translating `sub(worldB, worldA)`. -/
def pairDelta (A B : Mesh) (ca cb : SphereCollider) : VecLike :=
  sub (worldCenter B cb) (worldCenter A ca)

/-- Center distance for a pair, translating `dist = length(delta)`. -/
noncomputable def pairDist (A B : Mesh) (ca cb : SphereCollider) : ℝ :=
  length (pairDelta A B ca cb)

/-- Degenerate-distance nudge, translating the source's
`if (dist === 0) { delta.x = 0.001; ... }`: when the distance is exactly
zero every delta component is replaced by 0.001. -/
noncomputable def nudgedDelta (delta : VecLike) (dist : ℝ) : VecLike :=
  if dist = 0 then ⟨0.001, 0.001, 0.001⟩ else delta

/-- Contact normal, translating `normal = mulScalar(delta, 1 / (dist || 1))`
applied to the possibly nudged delta: the divisor is `dist`, or the fallback
`1` when `dist` is exactly zero (JavaScript `dist || 1`). -/
noncomputable def collisionNormal (delta : VecLike) (dist : ℝ) : VecLike :=
  mulScalar (nudgedDelta delta dist) (1 / (if dist = 0 then 1 else dist))

/-- Positional correction vector for an overlapping pair, translating
`correction = mulScalar(normal, penetration * 0.5)` with
`penetration = minDist − dist`. -/
noncomputable def pairCorrection (A B : Mesh) (ca cb : SphereCollider) : VecLike :=
  mulScalar (collisionNormal (pairDelta A B ca cb) (pairDist A B ca cb))
    ((ca.radius + cb.radius - pairDist A B ca cb) * 0.5)

/-- Relative velocity of a pair of bodies projected on the contact normal,
translating `rel = sub(vb, va)` and the dot product
`rel.x * normal.x + rel.y * normal.y + rel.z * normal.z`. -/
noncomputable def pairRelAlongNormal (A B : Mesh) (ca cb : SphereCollider)
    (ba bb : SimplePhysicsBody) : ℝ :=
  (sub bb.velocity ba.velocity).x * (collisionNormal (pairDelta A B ca cb) (pairDist A B ca cb)).x +
  (sub bb.velocity ba.velocity).y * (collisionNormal (pairDelta A B ca cb) (pairDist A B ca cb)).y +
  (sub bb.velocity ba.velocity).z * (collisionNormal (pairDelta A B ca cb) (pairDist A B ca cb)).z

/-- Resolution of one unordered pair, translating the body of the source's
inner `j` loop (lines 94–141 of `stepPhysics`): skip unless both entities
carry a physics record with a collider; on overlap apply the positional
correction to both, then, when both also carry a body and the pair is not
already separating, apply the restitution impulse to both velocities. -/
noncomputable def resolvePair (A B : Mesh) : Mesh × Mesh :=
  match A.physics with
  | none => (A, B)
  | some pa =>
    match pa.collider with
    | none => (A, B)
    | some ca =>
      match B.physics with
      | none => (A, B)
      | some pb =>
        match pb.collider with
        | none => (A, B)
        | some cb =>
          let dist := pairDist A B ca cb
          let minDist := ca.radius + cb.radius
          if dist < minDist then
            let normal := collisionNormal (pairDelta A B ca cb) dist
            let correction := pairCorrection A B ca cb
            let A1 := { A with position := add A.position (mulScalar correction (-1)) }
            let B1 := { B with position := add B.position correction }
            match pa.body, pb.body with
            | some ba, some bb =>
              let relAlongNormal := pairRelAlongNormal A B ca cb ba bb
              if relAlongNormal > 0 then (A1, B1)
              else
                let invMassA := if ba.mass > 0 then 1 / ba.mass else 0
                let invMassB := if bb.mass > 0 then 1 / bb.mass else 0
                let jImp := (-(1 + restitution) * relAlongNormal) / (invMassA + invMassB)
                let impulse := mulScalar normal jImp
                let ba1 := { ba with velocity := sub ba.velocity (mulScalar impulse invMassA) }
                let bb1 := { bb with velocity := add bb.velocity (mulScalar impulse invMassB) }
                ({ A1 with physics := some { pa with body := some ba1 } },
                 { B1 with physics := some { pb with body := some bb1 } })
            | _, _ => (A1, B1)
          else (A, B)

/-- Integration phase for one entity, translating the source's first loop:
entities without a physics record or body are skipped, otherwise
`p.body.integrate(m.transform.position, dt)` updates body and position. -/
noncomputable def integrateMesh (dt : ℝ) (m : Mesh) : Mesh :=
  match m.physics with
  | none => m
  | some p =>
    match p.body with
    | none => m
    | some b =>
      let r := b.integrate m.position dt
      { m with position := r.2, physics := some { p with body := some r.1 } }

/-- Inner collision loop for a fixed first entity, translating the source's
`for (let j = i + 1; ...)`: the current `A` is resolved against each later
entity in order, threading the updates. -/
noncomputable def collideWithRest (A : Mesh) : List Mesh → Mesh × List Mesh
  | [] => (A, [])
  | B :: rest =>
    let r := resolvePair A B
    let s := collideWithRest r.1 rest
    (s.1, r.2 :: s.2)

/-- Outer collision loop, translating `for (let i = 0; ...)`, with explicit
fuel equal to the list length (each iteration consumes exactly one entity,
and `collideWithRest` preserves the length of the remainder). -/
noncomputable def collidePassAux : ℕ → List Mesh → List Mesh
  | 0, l => l
  | _ + 1, [] => []
  | n + 1, A :: rest =>
    let s := collideWithRest A rest
    s.1 :: collidePassAux n s.2

/-- Collision phase over the whole entity list. -/
noncomputable def collidePass (l : List Mesh) : List Mesh :=
  collidePassAux l.length l

/-- Two-phase world step, translating the source's `stepPhysics`:
integrate every body in list order, then run the pairwise collision
detection and resolution pass. -/
noncomputable def stepPhysics (meshes : List Mesh) (dt : ℝ) : List Mesh :=
  collidePass (meshes.map (integrateMesh dt))

/-- Linear momentum carried by an entity's attached body (mass times
velocity), zero when no body is attached; observable used to state
conservation across the collision pass. -/
def meshMomentum (m : Mesh) : VecLike :=
  match m.physics with
  | some p =>
    match p.body with
    | some b => mulScalar b.velocity b.mass
    | none => ⟨0, 0, 0⟩
  | none => ⟨0, 0, 0⟩

/-- Mass of an optional body, the part of a body the step must never
change. -/
def bodySkeleton : Option SimplePhysicsBody → Option ℝ
  | none => none
  | some b => some b.mass

/-- Immutable part of an attachment: which slots are present, the body's
mass, and the whole collider (radius and offset). -/
def physicsSkeleton : Option Physics → Option (Option ℝ × Option SphereCollider)
  | none => none
  | some p => some (bodySkeleton p.body, p.collider)

/-- Immutable part of an entity under `stepPhysics`: everything but the
position, the velocity and the accumulated force. -/
def meshSkeleton (m : Mesh) : Option (Option ℝ × Option SphereCollider) :=
  physicsSkeleton m.physics

/-- Modelled from the source's velocity-resolution block (lines 117–139 of
`stepPhysics`) under IEEE-754 double semantics, which the real-number
embedding cannot express: a JavaScript number is finite, an infinity, or
NaN.  The model ignores the sign of zero, which the evaluated path never
depends on. -/
inductive JsNum where
  | fin : ℝ → JsNum
  | posInf : JsNum
  | negInf : JsNum
  | nan : JsNum

/-- IEEE-754 addition on the modelled numbers: NaN is absorbing and
opposite infinities give NaN. -/
noncomputable def jsAdd : JsNum → JsNum → JsNum
  | .nan, _ => .nan
  | _, .nan => .nan
  | .fin a, .fin b => .fin (a + b)
  | .fin _, .posInf => .posInf
  | .fin _, .negInf => .negInf
  | .posInf, .fin _ => .posInf
  | .negInf, .fin _ => .negInf
  | .posInf, .posInf => .posInf
  | .negInf, .negInf => .negInf
  | .posInf, .negInf => .nan
  | .negInf, .posInf => .nan

/-- IEEE-754 subtraction on the modelled numbers. -/
noncomputable def jsSub : JsNum → JsNum → JsNum
  | .nan, _ => .nan
  | _, .nan => .nan
  | .fin a, .fin b => .fin (a - b)
  | .fin _, .posInf => .negInf
  | .fin _, .negInf => .posInf
  | .posInf, .fin _ => .posInf
  | .negInf, .fin _ => .negInf
  | .posInf, .posInf => .nan
  | .posInf, .negInf => .posInf
  | .negInf, .posInf => .negInf
  | .negInf, .negInf => .nan

/-- IEEE-754 multiplication on the modelled numbers: zero times an
infinity is NaN. -/
noncomputable def jsMul : JsNum → JsNum → JsNum
  | .nan, _ => .nan
  | _, .nan => .nan
  | .fin a, .fin b => .fin (a * b)
  | .fin a, .posInf => if a = 0 then .nan else if 0 < a then .posInf else .negInf
  | .fin a, .negInf => if a = 0 then .nan else if 0 < a then .negInf else .posInf
  | .posInf, .fin b => if b = 0 then .nan else if 0 < b then .posInf else .negInf
  | .negInf, .fin b => if b = 0 then .nan else if 0 < b then .negInf else .posInf
  | .posInf, .posInf => .posInf
  | .posInf, .negInf => .negInf
  | .negInf, .posInf => .negInf
  | .negInf, .negInf => .posInf

/-- IEEE-754 division on the modelled numbers (sign of zero ignored):
a nonzero finite number divided by zero is a signed infinity, zero by
zero is NaN. -/
noncomputable def jsDiv : JsNum → JsNum → JsNum
  | .nan, _ => .nan
  | _, .nan => .nan
  | .fin a, .fin b =>
    if b = 0 then (if a = 0 then .nan else if 0 < a then .posInf else .negInf)
    else .fin (a / b)
  | .fin _, .posInf => .fin 0
  | .fin _, .negInf => .fin 0
  | .posInf, .fin b => if 0 ≤ b then .posInf else .negInf
  | .negInf, .fin b => if 0 ≤ b then .negInf else .posInf
  | .posInf, .posInf => .nan
  | .posInf, .negInf => .nan
  | .negInf, .posInf => .nan
  | .negInf, .negInf => .nan

/-- Strict positivity test on the modelled numbers; every comparison with
NaN is false, as in JavaScript. -/
noncomputable def jsIsPos : JsNum → Bool
  | .fin a => if 0 < a then true else false
  | .posInf => true
  | .negInf => false
  | .nan => false

/-- Vector of modelled JavaScript numbers. -/
structure JsVec where
  x : JsNum
  y : JsNum
  z : JsNum

/-- Componentwise modelled subtraction, as the source's `sub`. -/
noncomputable def jsSubVec (a b : JsVec) : JsVec :=
  ⟨jsSub a.x b.x, jsSub a.y b.y, jsSub a.z b.z⟩

/-- Componentwise modelled addition, as the source's `add`. -/
noncomputable def jsAddVec (a b : JsVec) : JsVec :=
  ⟨jsAdd a.x b.x, jsAdd a.y b.y, jsAdd a.z b.z⟩

/-- Modelled scalar multiplication, as the source's `mulScalar`. -/
noncomputable def jsMulScalar (a : JsVec) (s : JsNum) : JsVec :=
  ⟨jsMul a.x s, jsMul a.y s, jsMul a.z s⟩

/-- Modelled from the source's velocity-resolution block (lines 117–139 of
`stepPhysics`), evaluated under IEEE-754 semantics: relative velocity along
the normal, separation test, inverse masses, impulse scalar
`j = (-(1 + restitution) * relAlongNormal) / (invMassA + invMassB)`, and
the impulse application to both velocities. -/
noncomputable def jsResolveVelocity (va vb normal : JsVec) (massA massB : ℝ) :
    JsVec × JsVec :=
  let rel := jsSubVec vb va
  let relAlongNormal :=
    jsAdd (jsAdd (jsMul rel.x normal.x) (jsMul rel.y normal.y)) (jsMul rel.z normal.z)
  if jsIsPos relAlongNormal then (va, vb)
  else
    let invMassA : JsNum := if massA > 0 then .fin (1 / massA) else .fin 0
    let invMassB : JsNum := if massB > 0 then .fin (1 / massB) else .fin 0
    let jImp := jsDiv (jsMul (.fin (-(1 + restitution))) relAlongNormal)
      (jsAdd invMassA invMassB)
    let impulse := jsMulScalar normal jImp
    (jsSubVec va (jsMulScalar impulse invMassA),
     jsAddVec vb (jsMulScalar impulse invMassB))

/-- Evaluation lemma for `length`: if the sum of squares of the
components equals `a * a` with `a` nonnegative, the length is `a`. -/
theorem length_eq_of_eq (v : VecLike) (a : ℝ) (h : 0 ≤ a)
    (hv : v.x * v.x + v.y * v.y + v.z * v.z = a * a) : length v = a := by
  unfold length
  rw [hv]
  exact Real.sqrt_mul_self h

/-- Folding `applyForce` over a list of forces sums them into the
accumulator and changes neither velocity nor mass. -/
theorem foldl_applyForce (fs : List VecLike) (b : SimplePhysicsBody) :
    (fs.foldl SimplePhysicsBody.applyForce b).accumulatedForce =
        fs.foldl add b.accumulatedForce ∧
      (fs.foldl SimplePhysicsBody.applyForce b).velocity = b.velocity ∧
      (fs.foldl SimplePhysicsBody.applyForce b).mass = b.mass := by
  induction fs generalizing b with
  | nil => exact ⟨rfl, rfl, rfl⟩
  | cons f fs ih =>
    simpa only [List.foldl_cons, SimplePhysicsBody.applyForce] using
      ih { b with accumulatedForce := add b.accumulatedForce f }

/-- The early return of `integrate` for non-positive dt. -/
theorem integrate_nonpos (b : SimplePhysicsBody) (p : VecLike) (dt : ℝ)
    (h : dt ≤ 0) : b.integrate p dt = (b, p) := by
  unfold SimplePhysicsBody.integrate
  rw [if_pos h]

/-- C2: for every body state, position and non-positive dt, `integrate`
is a no-op: velocity, position and the pending accumulated force are all
returned unchanged. -/
theorem integrate_noop_of_dt_nonpos (b : SimplePhysicsBody) (p : VecLike)
    (dt : ℝ) (h : dt ≤ 0) : b.integrate p dt = (b, p) :=
  integrate_nonpos b p dt h

/-- Witness for C2 at a concrete body, position and dt = 0. -/
theorem integrate_noop_of_dt_nonpos_witness :
    SimplePhysicsBody.integrate ⟨⟨1, 2, 3⟩, 5, ⟨7, 0, 0⟩⟩ ⟨4, 4, 4⟩ 0 =
      (⟨⟨1, 2, 3⟩, 5, ⟨7, 0, 0⟩⟩, ⟨4, 4, 4⟩) :=
  integrate_noop_of_dt_nonpos ⟨⟨1, 2, 3⟩, 5, ⟨7, 0, 0⟩⟩ ⟨4, 4, 4⟩ 0 le_rfl

/-- C3: forces summing to F applied to a fresh body of positive mass m,
then one `integrate` with positive dt, give velocity (F/m)·dt, advance the
position by the post-update velocity times dt, and reset the accumulated
force, so a further zero `applyForce` and `integrate` with positive dt
leave the velocity unchanged. -/
theorem integrate_applies_accumulated_force (m : ℝ) (hm : 0 < m)
    (fs : List VecLike) (F : VecLike) (hF : fs.foldl add ⟨0, 0, 0⟩ = F)
    (p : VecLike) (dt dt2 : ℝ) (hdt : 0 < dt) (hdt2 : 0 < dt2) :
    ((fs.foldl SimplePhysicsBody.applyForce ⟨⟨0, 0, 0⟩, m, ⟨0, 0, 0⟩⟩).integrate p dt).1.velocity =
        mulScalar F (dt / m) ∧
      ((fs.foldl SimplePhysicsBody.applyForce ⟨⟨0, 0, 0⟩, m, ⟨0, 0, 0⟩⟩).integrate p dt).2 =
        add p (mulScalar (mulScalar F (dt / m)) dt) ∧
      ((fs.foldl SimplePhysicsBody.applyForce ⟨⟨0, 0, 0⟩, m, ⟨0, 0, 0⟩⟩).integrate p dt).1.accumulatedForce =
        ⟨0, 0, 0⟩ ∧
      ((((fs.foldl SimplePhysicsBody.applyForce ⟨⟨0, 0, 0⟩, m, ⟨0, 0, 0⟩⟩).integrate p dt).1.applyForce
            ⟨0, 0, 0⟩).integrate
          ((fs.foldl SimplePhysicsBody.applyForce ⟨⟨0, 0, 0⟩, m, ⟨0, 0, 0⟩⟩).integrate p dt).2
          dt2).1.velocity =
        ((fs.foldl SimplePhysicsBody.applyForce ⟨⟨0, 0, 0⟩, m, ⟨0, 0, 0⟩⟩).integrate p dt).1.velocity := by
  obtain ⟨hacc, hvel, hmass⟩ := foldl_applyForce fs ⟨⟨0, 0, 0⟩, m, ⟨0, 0, 0⟩⟩
  set b := fs.foldl SimplePhysicsBody.applyForce ⟨⟨0, 0, 0⟩, m, ⟨0, 0, 0⟩⟩ with hb
  rw [hF] at hacc
  unfold SimplePhysicsBody.integrate SimplePhysicsBody.applyForce
  rw [if_neg (not_le.mpr hdt)]
  simp only [hacc, hvel, hmass]
  refine ⟨?_, ?_, trivial, ?_⟩
  · simp only [mulScalar, VecLike.mk.injEq]
    refine ⟨?_, ?_, ?_⟩ <;> ring
  · simp only [add, mulScalar, VecLike.mk.injEq]
    refine ⟨?_, ?_, ?_⟩ <;> ring
  · simp only [add]
    rw [if_neg (not_le.mpr hdt2)]
    simp only [VecLike.mk.injEq]
    norm_num

/-- Witness for C3: mass 2, forces (2,0,0) and (4,0,0), dt = dt2 = 1. -/
theorem integrate_applies_accumulated_force_witness :
    (([⟨2, 0, 0⟩, ⟨4, 0, 0⟩] : List VecLike).foldl SimplePhysicsBody.applyForce
            ⟨⟨0, 0, 0⟩, 2, ⟨0, 0, 0⟩⟩ |>.integrate ⟨0, 0, 0⟩ 1).1.velocity =
        mulScalar ⟨6, 0, 0⟩ (1 / 2) ∧
      (([⟨2, 0, 0⟩, ⟨4, 0, 0⟩] : List VecLike).foldl SimplePhysicsBody.applyForce
            ⟨⟨0, 0, 0⟩, 2, ⟨0, 0, 0⟩⟩ |>.integrate ⟨0, 0, 0⟩ 1).2 =
        add ⟨0, 0, 0⟩ (mulScalar (mulScalar ⟨6, 0, 0⟩ (1 / 2)) 1) ∧
      (([⟨2, 0, 0⟩, ⟨4, 0, 0⟩] : List VecLike).foldl SimplePhysicsBody.applyForce
            ⟨⟨0, 0, 0⟩, 2, ⟨0, 0, 0⟩⟩ |>.integrate ⟨0, 0, 0⟩ 1).1.accumulatedForce =
        ⟨0, 0, 0⟩ ∧
      (((([⟨2, 0, 0⟩, ⟨4, 0, 0⟩] : List VecLike).foldl SimplePhysicsBody.applyForce
                ⟨⟨0, 0, 0⟩, 2, ⟨0, 0, 0⟩⟩ |>.integrate ⟨0, 0, 0⟩ 1).1.applyForce
              ⟨0, 0, 0⟩).integrate
            (([⟨2, 0, 0⟩, ⟨4, 0, 0⟩] : List VecLike).foldl SimplePhysicsBody.applyForce
                ⟨⟨0, 0, 0⟩, 2, ⟨0, 0, 0⟩⟩ |>.integrate ⟨0, 0, 0⟩ 1).2
            1).1.velocity =
        (([⟨2, 0, 0⟩, ⟨4, 0, 0⟩] : List VecLike).foldl SimplePhysicsBody.applyForce
            ⟨⟨0, 0, 0⟩, 2, ⟨0, 0, 0⟩⟩ |>.integrate ⟨0, 0, 0⟩ 1).1.velocity :=
  integrate_applies_accumulated_force 2 (by norm_num) [⟨2, 0, 0⟩, ⟨4, 0, 0⟩] ⟨6, 0, 0⟩
    (by simp only [List.foldl_cons, List.foldl_nil, add, VecLike.mk.injEq]; norm_num)
    ⟨0, 0, 0⟩ 1 1 one_pos one_pos

/-- C4: a pair of collider-bearing entities whose world-space center
distance is at least the sum of the radii is left completely unchanged by
the collision pass. -/
theorem resolvePair_no_overlap_unchanged (A B : Mesh) (pa pb : Physics)
    (ca cb : SphereCollider) (hA : A.physics = some pa)
    (hca : pa.collider = some ca) (hB : B.physics = some pb)
    (hcb : pb.collider = some cb)
    (h : ca.radius + cb.radius ≤ pairDist A B ca cb) :
    resolvePair A B = (A, B) := by
  simp only [resolvePair, hA, hca, hB, hcb]
  rw [if_neg (not_lt.mpr h)]

/-- Witness for C4: unit spheres at x = 0 and x = 3, distance 3 ≥ 2. -/
theorem resolvePair_no_overlap_unchanged_witness :
    resolvePair
        ⟨⟨0, 0, 0⟩, some ⟨some ⟨⟨0, 0, 0⟩, 1, ⟨0, 0, 0⟩⟩, some ⟨1, ⟨0, 0, 0⟩⟩⟩⟩
        ⟨⟨3, 0, 0⟩, some ⟨some ⟨⟨0, 0, 0⟩, 1, ⟨0, 0, 0⟩⟩, some ⟨1, ⟨0, 0, 0⟩⟩⟩⟩ =
      (⟨⟨0, 0, 0⟩, some ⟨some ⟨⟨0, 0, 0⟩, 1, ⟨0, 0, 0⟩⟩, some ⟨1, ⟨0, 0, 0⟩⟩⟩⟩,
       ⟨⟨3, 0, 0⟩, some ⟨some ⟨⟨0, 0, 0⟩, 1, ⟨0, 0, 0⟩⟩, some ⟨1, ⟨0, 0, 0⟩⟩⟩⟩) :=
  resolvePair_no_overlap_unchanged _ _ _ _ _ _ rfl rfl rfl rfl (by
    rw [show pairDist
        ⟨⟨0, 0, 0⟩, some ⟨some ⟨⟨0, 0, 0⟩, 1, ⟨0, 0, 0⟩⟩, some ⟨1, ⟨0, 0, 0⟩⟩⟩⟩
        ⟨⟨3, 0, 0⟩, some ⟨some ⟨⟨0, 0, 0⟩, 1, ⟨0, 0, 0⟩⟩, some ⟨1, ⟨0, 0, 0⟩⟩⟩⟩
        ⟨1, ⟨0, 0, 0⟩⟩ ⟨1, ⟨0, 0, 0⟩⟩ = 3 from
      length_eq_of_eq _ 3 (by norm_num)
        (by simp only [pairDelta, worldCenter, add, sub]; norm_num)]
    norm_num)

/-- C5: an overlapping collider pair has both positions corrected by half
the penetration along the contact normal, in opposite directions,
independently of the attached bodies and their masses. -/
theorem resolvePair_positional_correction (A B : Mesh) (pa pb : Physics)
    (ca cb : SphereCollider) (hA : A.physics = some pa)
    (hca : pa.collider = some ca) (hB : B.physics = some pb)
    (hcb : pb.collider = some cb)
    (h : pairDist A B ca cb < ca.radius + cb.radius) :
    (resolvePair A B).1.position =
        add A.position (mulScalar (pairCorrection A B ca cb) (-1)) ∧
      (resolvePair A B).2.position = add B.position (pairCorrection A B ca cb) := by
  simp only [resolvePair, hA, hca, hB, hcb]
  rw [if_pos h]
  cases hba : pa.body <;> cases hbb : pb.body <;>
    simp only [] <;>
    first
      | exact ⟨trivial, trivial⟩
      | (split <;> exact ⟨rfl, rfl⟩)

/-- Witness for C5: unit spheres at x = 0 and x = 1.5, distance 1.5 < 2. -/
theorem resolvePair_positional_correction_witness :
    (resolvePair
          ⟨⟨0, 0, 0⟩, some ⟨some ⟨⟨0, 0, 0⟩, 1, ⟨0, 0, 0⟩⟩, some ⟨1, ⟨0, 0, 0⟩⟩⟩⟩
          ⟨⟨1.5, 0, 0⟩, some ⟨some ⟨⟨0, 0, 0⟩, 1, ⟨0, 0, 0⟩⟩, some ⟨1, ⟨0, 0, 0⟩⟩⟩⟩).1.position =
        add ⟨0, 0, 0⟩
          (mulScalar
            (pairCorrection
              ⟨⟨0, 0, 0⟩, some ⟨some ⟨⟨0, 0, 0⟩, 1, ⟨0, 0, 0⟩⟩, some ⟨1, ⟨0, 0, 0⟩⟩⟩⟩
              ⟨⟨1.5, 0, 0⟩, some ⟨some ⟨⟨0, 0, 0⟩, 1, ⟨0, 0, 0⟩⟩, some ⟨1, ⟨0, 0, 0⟩⟩⟩⟩
              ⟨1, ⟨0, 0, 0⟩⟩ ⟨1, ⟨0, 0, 0⟩⟩) (-1)) ∧
      (resolvePair
          ⟨⟨0, 0, 0⟩, some ⟨some ⟨⟨0, 0, 0⟩, 1, ⟨0, 0, 0⟩⟩, some ⟨1, ⟨0, 0, 0⟩⟩⟩⟩
          ⟨⟨1.5, 0, 0⟩, some ⟨some ⟨⟨0, 0, 0⟩, 1, ⟨0, 0, 0⟩⟩, some ⟨1, ⟨0, 0, 0⟩⟩⟩⟩).2.position =
        add ⟨1.5, 0, 0⟩
          (pairCorrection
            ⟨⟨0, 0, 0⟩, some ⟨some ⟨⟨0, 0, 0⟩, 1, ⟨0, 0, 0⟩⟩, some ⟨1, ⟨0, 0, 0⟩⟩⟩⟩
            ⟨⟨1.5, 0, 0⟩, some ⟨some ⟨⟨0, 0, 0⟩, 1, ⟨0, 0, 0⟩⟩, some ⟨1, ⟨0, 0, 0⟩⟩⟩⟩
            ⟨1, ⟨0, 0, 0⟩⟩ ⟨1, ⟨0, 0, 0⟩⟩) :=
  resolvePair_positional_correction _ _ _ _ _ _ rfl rfl rfl rfl (by
    rw [show pairDist
        ⟨⟨0, 0, 0⟩, some ⟨some ⟨⟨0, 0, 0⟩, 1, ⟨0, 0, 0⟩⟩, some ⟨1, ⟨0, 0, 0⟩⟩⟩⟩
        ⟨⟨1.5, 0, 0⟩, some ⟨some ⟨⟨0, 0, 0⟩, 1, ⟨0, 0, 0⟩⟩, some ⟨1, ⟨0, 0, 0⟩⟩⟩⟩
        ⟨1, ⟨0, 0, 0⟩⟩ ⟨1, ⟨0, 0, 0⟩⟩ = 1.5 from
      length_eq_of_eq _ 1.5 (by norm_num)
        (by simp only [pairDelta, worldCenter, add, sub]; norm_num)]
    norm_num)

/-- C6: an overlapping pair of entities that both carry bodies and whose
relative velocity along the contact normal is strictly positive receives
the positional correction but no impulse: the result is both meshes with
only their positions changed, velocities and all body state untouched. -/
theorem resolvePair_separating_no_impulse (A B : Mesh) (pa pb : Physics)
    (ca cb : SphereCollider) (ba bb : SimplePhysicsBody)
    (hA : A.physics = some pa) (hca : pa.collider = some ca)
    (hB : B.physics = some pb) (hcb : pb.collider = some cb)
    (hba : pa.body = some ba) (hbb : pb.body = some bb)
    (hover : pairDist A B ca cb < ca.radius + cb.radius)
    (hsep : pairRelAlongNormal A B ca cb ba bb > 0) :
    resolvePair A B =
      ({ A with position := add A.position (mulScalar (pairCorrection A B ca cb) (-1)) },
       { B with position := add B.position (pairCorrection A B ca cb) }) := by
  simp only [resolvePair, hA, hca, hB, hcb, hba, hbb]
  rw [if_pos hover, if_pos hsep]

/-- Witness for C6: unit spheres at x = 0 and x = 1.5, B moving away at
velocity (1,0,0), so the relative velocity along the normal is 1 > 0. -/
theorem resolvePair_separating_no_impulse_witness :
    resolvePair
        ⟨⟨0, 0, 0⟩, some ⟨some ⟨⟨0, 0, 0⟩, 1, ⟨0, 0, 0⟩⟩, some ⟨1, ⟨0, 0, 0⟩⟩⟩⟩
        ⟨⟨1.5, 0, 0⟩, some ⟨some ⟨⟨1, 0, 0⟩, 1, ⟨0, 0, 0⟩⟩, some ⟨1, ⟨0, 0, 0⟩⟩⟩⟩ =
      ({ (⟨⟨0, 0, 0⟩, some ⟨some ⟨⟨0, 0, 0⟩, 1, ⟨0, 0, 0⟩⟩, some ⟨1, ⟨0, 0, 0⟩⟩⟩⟩ : Mesh) with
          position := add ⟨0, 0, 0⟩
            (mulScalar
              (pairCorrection
                ⟨⟨0, 0, 0⟩, some ⟨some ⟨⟨0, 0, 0⟩, 1, ⟨0, 0, 0⟩⟩, some ⟨1, ⟨0, 0, 0⟩⟩⟩⟩
                ⟨⟨1.5, 0, 0⟩, some ⟨some ⟨⟨1, 0, 0⟩, 1, ⟨0, 0, 0⟩⟩, some ⟨1, ⟨0, 0, 0⟩⟩⟩⟩
                ⟨1, ⟨0, 0, 0⟩⟩ ⟨1, ⟨0, 0, 0⟩⟩) (-1)) },
       { (⟨⟨1.5, 0, 0⟩, some ⟨some ⟨⟨1, 0, 0⟩, 1, ⟨0, 0, 0⟩⟩, some ⟨1, ⟨0, 0, 0⟩⟩⟩⟩ : Mesh) with
          position := add ⟨1.5, 0, 0⟩
            (pairCorrection
              ⟨⟨0, 0, 0⟩, some ⟨some ⟨⟨0, 0, 0⟩, 1, ⟨0, 0, 0⟩⟩, some ⟨1, ⟨0, 0, 0⟩⟩⟩⟩
              ⟨⟨1.5, 0, 0⟩, some ⟨some ⟨⟨1, 0, 0⟩, 1, ⟨0, 0, 0⟩⟩, some ⟨1, ⟨0, 0, 0⟩⟩⟩⟩
              ⟨1, ⟨0, 0, 0⟩⟩ ⟨1, ⟨0, 0, 0⟩⟩) }) := by
  have hd : pairDist
      ⟨⟨0, 0, 0⟩, some ⟨some ⟨⟨0, 0, 0⟩, 1, ⟨0, 0, 0⟩⟩, some ⟨1, ⟨0, 0, 0⟩⟩⟩⟩
      ⟨⟨1.5, 0, 0⟩, some ⟨some ⟨⟨1, 0, 0⟩, 1, ⟨0, 0, 0⟩⟩, some ⟨1, ⟨0, 0, 0⟩⟩⟩⟩
      ⟨1, ⟨0, 0, 0⟩⟩ ⟨1, ⟨0, 0, 0⟩⟩ = 1.5 :=
    length_eq_of_eq _ 1.5 (by norm_num)
      (by simp only [pairDelta, worldCenter, add, sub]; norm_num)
  exact resolvePair_separating_no_impulse _ _ _ _ _ _ _ _ rfl rfl rfl rfl rfl rfl
    (by rw [hd]; norm_num)
    (by
      simp only [pairRelAlongNormal, collisionNormal, nudgedDelta, hd,
        pairDelta, worldCenter, add, sub, mulScalar]
      norm_num)

/-- Applying an impulse `n · jv` with opposite signs scaled by the inverse
masses leaves the total momentum `m · v` of the two bodies unchanged. -/
theorem impulse_momentum (va vb n : VecLike) (mA mB jv : ℝ) (hA : mA ≠ 0)
    (hB : mB ≠ 0) :
    add (mulScalar (sub va (mulScalar (mulScalar n jv) (1 / mA))) mA)
        (mulScalar (add vb (mulScalar (mulScalar n jv) (1 / mB))) mB) =
      add (mulScalar va mA) (mulScalar vb mB) := by
  simp only [add, sub, mulScalar, VecLike.mk.injEq]
  refine ⟨?_, ?_, ?_⟩ <;> field_simp <;> ring

/-- C9: for an overlapping, non-separating pair whose two bodies both have
strictly positive mass, the velocity-resolution step of the collision pass
conserves the total linear momentum of the pair. -/
theorem resolvePair_momentum_conserved (A B : Mesh) (pa pb : Physics)
    (ca cb : SphereCollider) (ba bb : SimplePhysicsBody)
    (hA : A.physics = some pa) (hca : pa.collider = some ca)
    (hB : B.physics = some pb) (hcb : pb.collider = some cb)
    (hba : pa.body = some ba) (hbb : pb.body = some bb)
    (hmA : ba.mass > 0) (hmB : bb.mass > 0)
    (hover : pairDist A B ca cb < ca.radius + cb.radius)
    (hnosep : ¬pairRelAlongNormal A B ca cb ba bb > 0) :
    add (meshMomentum (resolvePair A B).1) (meshMomentum (resolvePair A B).2) =
      add (meshMomentum A) (meshMomentum B) := by
  simp only [resolvePair, hA, hca, hB, hcb, hba, hbb, if_pos hover,
    if_neg hnosep, if_pos hmA, if_pos hmB, meshMomentum]
  exact impulse_momentum _ _ _ _ _ _ (ne_of_gt hmA) (ne_of_gt hmB)

/-- Witness for C9: unit-mass unit spheres at x = 0 and x = 1.5, B closing
at velocity (-1,0,0); relative velocity along the normal is -1 ≤ 0. -/
theorem resolvePair_momentum_conserved_witness :
    add
        (meshMomentum
          (resolvePair
              ⟨⟨0, 0, 0⟩, some ⟨some ⟨⟨0, 0, 0⟩, 1, ⟨0, 0, 0⟩⟩, some ⟨1, ⟨0, 0, 0⟩⟩⟩⟩
              ⟨⟨1.5, 0, 0⟩, some ⟨some ⟨⟨-1, 0, 0⟩, 1, ⟨0, 0, 0⟩⟩, some ⟨1, ⟨0, 0, 0⟩⟩⟩⟩).1)
        (meshMomentum
          (resolvePair
              ⟨⟨0, 0, 0⟩, some ⟨some ⟨⟨0, 0, 0⟩, 1, ⟨0, 0, 0⟩⟩, some ⟨1, ⟨0, 0, 0⟩⟩⟩⟩
              ⟨⟨1.5, 0, 0⟩, some ⟨some ⟨⟨-1, 0, 0⟩, 1, ⟨0, 0, 0⟩⟩, some ⟨1, ⟨0, 0, 0⟩⟩⟩⟩).2) =
      add
        (meshMomentum
          ⟨⟨0, 0, 0⟩, some ⟨some ⟨⟨0, 0, 0⟩, 1, ⟨0, 0, 0⟩⟩, some ⟨1, ⟨0, 0, 0⟩⟩⟩⟩)
        (meshMomentum
          ⟨⟨1.5, 0, 0⟩, some ⟨some ⟨⟨-1, 0, 0⟩, 1, ⟨0, 0, 0⟩⟩, some ⟨1, ⟨0, 0, 0⟩⟩⟩⟩) := by
  have hd : pairDist
      ⟨⟨0, 0, 0⟩, some ⟨some ⟨⟨0, 0, 0⟩, 1, ⟨0, 0, 0⟩⟩, some ⟨1, ⟨0, 0, 0⟩⟩⟩⟩
      ⟨⟨1.5, 0, 0⟩, some ⟨some ⟨⟨-1, 0, 0⟩, 1, ⟨0, 0, 0⟩⟩, some ⟨1, ⟨0, 0, 0⟩⟩⟩⟩
      ⟨1, ⟨0, 0, 0⟩⟩ ⟨1, ⟨0, 0, 0⟩⟩ = 1.5 :=
    length_eq_of_eq _ 1.5 (by norm_num)
      (by simp only [pairDelta, worldCenter, add, sub]; norm_num)
  exact resolvePair_momentum_conserved _ _ _ _ _ _ _ _ rfl rfl rfl rfl rfl rfl
    (by norm_num) (by norm_num)
    (by rw [hd]; norm_num)
    (by
      simp only [pairRelAlongNormal, collisionNormal, nudgedDelta, hd,
        pairDelta, worldCenter, add, sub, mulScalar]
      norm_num)

/-- C8 (amended): for a pair whose actual center distance is nonzero, the
nudge does not fire and the contact normal is the delta scaled by the
reciprocal of the distance. -/
theorem collisionNormal_of_dist_ne_zero (A B : Mesh) (ca cb : SphereCollider)
    (h : pairDist A B ca cb ≠ 0) :
    collisionNormal (pairDelta A B ca cb) (pairDist A B ca cb) =
      mulScalar (pairDelta A B ca cb) (1 / pairDist A B ca cb) := by
  unfold collisionNormal nudgedDelta
  rw [if_neg h, if_neg h]

/-- Witness for the amended C8: unit spheres at x = 0 and x = 1.5. -/
theorem collisionNormal_of_dist_ne_zero_witness :
    collisionNormal
        (pairDelta
          ⟨⟨0, 0, 0⟩, some ⟨some ⟨⟨0, 0, 0⟩, 1, ⟨0, 0, 0⟩⟩, some ⟨1, ⟨0, 0, 0⟩⟩⟩⟩
          ⟨⟨1.5, 0, 0⟩, some ⟨some ⟨⟨0, 0, 0⟩, 1, ⟨0, 0, 0⟩⟩, some ⟨1, ⟨0, 0, 0⟩⟩⟩⟩
          ⟨1, ⟨0, 0, 0⟩⟩ ⟨1, ⟨0, 0, 0⟩⟩)
        (pairDist
          ⟨⟨0, 0, 0⟩, some ⟨some ⟨⟨0, 0, 0⟩, 1, ⟨0, 0, 0⟩⟩, some ⟨1, ⟨0, 0, 0⟩⟩⟩⟩
          ⟨⟨1.5, 0, 0⟩, some ⟨some ⟨⟨0, 0, 0⟩, 1, ⟨0, 0, 0⟩⟩, some ⟨1, ⟨0, 0, 0⟩⟩⟩⟩
          ⟨1, ⟨0, 0, 0⟩⟩ ⟨1, ⟨0, 0, 0⟩⟩) =
      mulScalar
        (pairDelta
          ⟨⟨0, 0, 0⟩, some ⟨some ⟨⟨0, 0, 0⟩, 1, ⟨0, 0, 0⟩⟩, some ⟨1, ⟨0, 0, 0⟩⟩⟩⟩
          ⟨⟨1.5, 0, 0⟩, some ⟨some ⟨⟨0, 0, 0⟩, 1, ⟨0, 0, 0⟩⟩, some ⟨1, ⟨0, 0, 0⟩⟩⟩⟩
          ⟨1, ⟨0, 0, 0⟩⟩ ⟨1, ⟨0, 0, 0⟩⟩)
        (1 /
          pairDist
            ⟨⟨0, 0, 0⟩, some ⟨some ⟨⟨0, 0, 0⟩, 1, ⟨0, 0, 0⟩⟩, some ⟨1, ⟨0, 0, 0⟩⟩⟩⟩
            ⟨⟨1.5, 0, 0⟩, some ⟨some ⟨⟨0, 0, 0⟩, 1, ⟨0, 0, 0⟩⟩, some ⟨1, ⟨0, 0, 0⟩⟩⟩⟩
            ⟨1, ⟨0, 0, 0⟩⟩ ⟨1, ⟨0, 0, 0⟩⟩) :=
  collisionNormal_of_dist_ne_zero _ _ _ _ (by
    rw [show pairDist
        ⟨⟨0, 0, 0⟩, some ⟨some ⟨⟨0, 0, 0⟩, 1, ⟨0, 0, 0⟩⟩, some ⟨1, ⟨0, 0, 0⟩⟩⟩⟩
        ⟨⟨1.5, 0, 0⟩, some ⟨some ⟨⟨0, 0, 0⟩, 1, ⟨0, 0, 0⟩⟩, some ⟨1, ⟨0, 0, 0⟩⟩⟩⟩
        ⟨1, ⟨0, 0, 0⟩⟩ ⟨1, ⟨0, 0, 0⟩⟩ = 1.5 from
      length_eq_of_eq _ 1.5 (by norm_num)
        (by simp only [pairDelta, worldCenter, add, sub]; norm_num)]
    norm_num)

/-- Counterexample to C8 as stated: two unit spheres with coincident world
centers form an overlapping pair whose center distance is exactly 0, so the
collision pass does reach the `dist == 0` fallback divisor 1, and the
normal it uses is the unscaled nudged delta (0.001, 0.001, 0.001), not the
delta scaled by the reciprocal distance. -/
theorem collisionNormal_fallback_reachable_cex :
    pairDist
        ⟨⟨2, 0, 0⟩, some ⟨some ⟨⟨0, 0, 0⟩, 1, ⟨0, 0, 0⟩⟩, some ⟨1, ⟨0, 0, 0⟩⟩⟩⟩
        ⟨⟨2, 0, 0⟩, some ⟨some ⟨⟨0, 0, 0⟩, 1, ⟨0, 0, 0⟩⟩, some ⟨1, ⟨0, 0, 0⟩⟩⟩⟩
        ⟨1, ⟨0, 0, 0⟩⟩ ⟨1, ⟨0, 0, 0⟩⟩ = 0 ∧
      pairDist
          ⟨⟨2, 0, 0⟩, some ⟨some ⟨⟨0, 0, 0⟩, 1, ⟨0, 0, 0⟩⟩, some ⟨1, ⟨0, 0, 0⟩⟩⟩⟩
          ⟨⟨2, 0, 0⟩, some ⟨some ⟨⟨0, 0, 0⟩, 1, ⟨0, 0, 0⟩⟩, some ⟨1, ⟨0, 0, 0⟩⟩⟩⟩
          ⟨1, ⟨0, 0, 0⟩⟩ ⟨1, ⟨0, 0, 0⟩⟩ < 1 + 1 ∧
      collisionNormal
          (pairDelta
            ⟨⟨2, 0, 0⟩, some ⟨some ⟨⟨0, 0, 0⟩, 1, ⟨0, 0, 0⟩⟩, some ⟨1, ⟨0, 0, 0⟩⟩⟩⟩
            ⟨⟨2, 0, 0⟩, some ⟨some ⟨⟨0, 0, 0⟩, 1, ⟨0, 0, 0⟩⟩, some ⟨1, ⟨0, 0, 0⟩⟩⟩⟩
            ⟨1, ⟨0, 0, 0⟩⟩ ⟨1, ⟨0, 0, 0⟩⟩)
          (pairDist
            ⟨⟨2, 0, 0⟩, some ⟨some ⟨⟨0, 0, 0⟩, 1, ⟨0, 0, 0⟩⟩, some ⟨1, ⟨0, 0, 0⟩⟩⟩⟩
            ⟨⟨2, 0, 0⟩, some ⟨some ⟨⟨0, 0, 0⟩, 1, ⟨0, 0, 0⟩⟩, some ⟨1, ⟨0, 0, 0⟩⟩⟩⟩
            ⟨1, ⟨0, 0, 0⟩⟩ ⟨1, ⟨0, 0, 0⟩⟩) =
        ⟨0.001, 0.001, 0.001⟩ ∧
      collisionNormal
          (pairDelta
            ⟨⟨2, 0, 0⟩, some ⟨some ⟨⟨0, 0, 0⟩, 1, ⟨0, 0, 0⟩⟩, some ⟨1, ⟨0, 0, 0⟩⟩⟩⟩
            ⟨⟨2, 0, 0⟩, some ⟨some ⟨⟨0, 0, 0⟩, 1, ⟨0, 0, 0⟩⟩, some ⟨1, ⟨0, 0, 0⟩⟩⟩⟩
            ⟨1, ⟨0, 0, 0⟩⟩ ⟨1, ⟨0, 0, 0⟩⟩)
          (pairDist
            ⟨⟨2, 0, 0⟩, some ⟨some ⟨⟨0, 0, 0⟩, 1, ⟨0, 0, 0⟩⟩, some ⟨1, ⟨0, 0, 0⟩⟩⟩⟩
            ⟨⟨2, 0, 0⟩, some ⟨some ⟨⟨0, 0, 0⟩, 1, ⟨0, 0, 0⟩⟩, some ⟨1, ⟨0, 0, 0⟩⟩⟩⟩
            ⟨1, ⟨0, 0, 0⟩⟩ ⟨1, ⟨0, 0, 0⟩⟩) ≠
        mulScalar
          (pairDelta
            ⟨⟨2, 0, 0⟩, some ⟨some ⟨⟨0, 0, 0⟩, 1, ⟨0, 0, 0⟩⟩, some ⟨1, ⟨0, 0, 0⟩⟩⟩⟩
            ⟨⟨2, 0, 0⟩, some ⟨some ⟨⟨0, 0, 0⟩, 1, ⟨0, 0, 0⟩⟩, some ⟨1, ⟨0, 0, 0⟩⟩⟩⟩
            ⟨1, ⟨0, 0, 0⟩⟩ ⟨1, ⟨0, 0, 0⟩⟩)
          (1 /
            pairDist
              ⟨⟨2, 0, 0⟩, some ⟨some ⟨⟨0, 0, 0⟩, 1, ⟨0, 0, 0⟩⟩, some ⟨1, ⟨0, 0, 0⟩⟩⟩⟩
              ⟨⟨2, 0, 0⟩, some ⟨some ⟨⟨0, 0, 0⟩, 1, ⟨0, 0, 0⟩⟩, some ⟨1, ⟨0, 0, 0⟩⟩⟩⟩
              ⟨1, ⟨0, 0, 0⟩⟩ ⟨1, ⟨0, 0, 0⟩⟩) := by
  have hd : pairDist
      ⟨⟨2, 0, 0⟩, some ⟨some ⟨⟨0, 0, 0⟩, 1, ⟨0, 0, 0⟩⟩, some ⟨1, ⟨0, 0, 0⟩⟩⟩⟩
      ⟨⟨2, 0, 0⟩, some ⟨some ⟨⟨0, 0, 0⟩, 1, ⟨0, 0, 0⟩⟩, some ⟨1, ⟨0, 0, 0⟩⟩⟩⟩
      ⟨1, ⟨0, 0, 0⟩⟩ ⟨1, ⟨0, 0, 0⟩⟩ = 0 :=
    length_eq_of_eq _ 0 le_rfl
      (by simp only [pairDelta, worldCenter, add, sub]; norm_num)
  refine ⟨hd, by rw [hd]; norm_num, ?_, ?_⟩
  · rw [hd]
    simp only [collisionNormal, nudgedDelta, if_pos rfl, mulScalar, VecLike.mk.injEq]
    norm_num
  · rw [hd]
    simp only [collisionNormal, nudgedDelta, if_pos rfl, mulScalar,
      pairDelta, worldCenter, add, sub]
    intro hcontra
    rw [VecLike.mk.injEq] at hcontra
    have := hcontra.1
    norm_num at this

/-- C7 (code bug evidence): in the source's velocity-resolution block, an
overlapping, non-separating pair whose two bodies both have mass ≤ 0 (zero
inverse masses) divides by zero; under IEEE-754 semantics the impulse
scalar is +∞, `impulse × invMass` is ∞ · 0 = NaN, and every component of
both velocities becomes NaN instead of being left unchanged. -/
theorem jsResolveVelocity_both_infinite_mass_nan :
    jsResolveVelocity ⟨.fin 0, .fin 0, .fin 0⟩ ⟨.fin (-1), .fin 0, .fin 0⟩
        ⟨.fin 1, .fin 0, .fin 0⟩ 0 0 =
      (⟨.nan, .nan, .nan⟩, ⟨.nan, .nan, .nan⟩) := by
  simp only [jsResolveVelocity, jsSubVec, jsAddVec, jsMulScalar, jsMul,
    jsAdd, jsSub, jsDiv, jsIsPos, restitution]
  norm_num

/-- Integration never changes a body's mass. -/
theorem integrate_mass (b : SimplePhysicsBody) (p : VecLike) (dt : ℝ) :
    (b.integrate p dt).1.mass = b.mass := by
  unfold SimplePhysicsBody.integrate
  split <;> rfl

/-- The integration phase preserves the immutable part of an entity. -/
theorem integrateMesh_skeleton (dt : ℝ) (m : Mesh) :
    meshSkeleton (integrateMesh dt m) = meshSkeleton m := by
  obtain ⟨pos, php⟩ := m
  rcases php with _ | p
  · rfl
  · obtain ⟨pb, pc⟩ := p
    rcases pb with _ | b
    · rfl
    · simp only [integrateMesh, meshSkeleton, physicsSkeleton, bodySkeleton,
        integrate_mass]

/-- Pair resolution preserves the immutable part of both entities. -/
theorem resolvePair_skeleton (A B : Mesh) :
    meshSkeleton (resolvePair A B).1 = meshSkeleton A ∧
      meshSkeleton (resolvePair A B).2 = meshSkeleton B := by
  obtain ⟨posA, phA⟩ := A
  obtain ⟨posB, phB⟩ := B
  rcases phA with _ | pa
  · exact ⟨rfl, rfl⟩
  obtain ⟨bA, cA⟩ := pa
  rcases cA with _ | ca
  · exact ⟨rfl, rfl⟩
  rcases phB with _ | pb
  · exact ⟨rfl, rfl⟩
  obtain ⟨bB, cB⟩ := pb
  rcases cB with _ | cb
  · exact ⟨rfl, rfl⟩
  rcases bA with _ | ba <;> rcases bB with _ | bb <;>
    simp only [resolvePair] <;>
    split <;>
    first
      | exact ⟨rfl, rfl⟩
      | exact ⟨trivial, trivial⟩
      | (split <;> first | exact ⟨rfl, rfl⟩ | exact ⟨trivial, trivial⟩)

/-- The inner collision loop preserves the immutable parts of the current
entity and of the remainder of the list. -/
theorem collideWithRest_skeleton (A : Mesh) (l : List Mesh) :
    meshSkeleton (collideWithRest A l).1 = meshSkeleton A ∧
      (collideWithRest A l).2.map meshSkeleton = l.map meshSkeleton := by
  induction l generalizing A with
  | nil => exact ⟨rfl, rfl⟩
  | cons B rest ih =>
    simp only [collideWithRest, List.map_cons]
    obtain ⟨h1, h2⟩ := resolvePair_skeleton A B
    obtain ⟨h3, h4⟩ := ih (resolvePair A B).1
    exact ⟨h3.trans h1, by rw [h2, h4]⟩

/-- The outer collision loop preserves the immutable part of every entity. -/
theorem collidePassAux_skeleton (n : ℕ) (l : List Mesh) :
    (collidePassAux n l).map meshSkeleton = l.map meshSkeleton := by
  induction n generalizing l with
  | zero => rfl
  | succ n ih =>
    cases l with
    | nil => rfl
    | cons A rest =>
      simp only [collidePassAux, List.map_cons]
      obtain ⟨h1, h2⟩ := collideWithRest_skeleton A rest
      rw [h1, ih, h2]

/-- C10: a whole `stepPhysics` call never changes which entities carry
physics records, which carry bodies or colliders, any body's mass, or any
collider's radius or offset; only positions, velocities and accumulated
forces can change. -/
theorem stepPhysics_preserves_skeleton (meshes : List Mesh) (dt : ℝ) :
    (stepPhysics meshes dt).map meshSkeleton = meshes.map meshSkeleton := by
  unfold stepPhysics collidePass
  rw [collidePassAux_skeleton]
  induction meshes with
  | nil => rfl
  | cons m ms ih => simp only [List.map_cons, integrateMesh_skeleton, ih]

/-- The integration phase is the identity on every entity when dt is
non-positive. -/
theorem integrateMesh_nonpos (dt : ℝ) (h : dt ≤ 0) (m : Mesh) :
    integrateMesh dt m = m := by
  obtain ⟨pos, php⟩ := m
  rcases php with _ | p
  · rfl
  obtain ⟨pb, pc⟩ := p
  rcases pb with _ | b
  · rfl
  simp only [integrateMesh, integrate_nonpos b pos dt h]

/-- A step over exactly two entities with non-positive dt is the collision
pass on the pair alone. -/
theorem stepPhysics_pair_nonpos (A B : Mesh) (dt : ℝ) (h : dt ≤ 0) :
    stepPhysics [A, B] dt = [(resolvePair A B).1, (resolvePair A B).2] := by
  unfold stepPhysics
  rw [List.map_cons, List.map_cons, List.map_nil, integrateMesh_nonpos dt h,
    integrateMesh_nonpos dt h]
  rfl

/-- C1: unit-radius, unit-mass spheres at x = 0 and x = 3/2 with a step
isolating the collision pass (dt = 0, so integration is a no-op): the
positions become (-1/4,0,0) and (7/4,0,0); with both velocities zero they
stay zero, and with B closing at (-1,0,0) the restitution-0.5 impulse
leaves A at velocity (-3/4,0,0) and B at (-1/4,0,0), with the same
corrected positions. -/
theorem stepPhysics_concrete_scenarios :
    stepPhysics
        [⟨⟨0, 0, 0⟩, some ⟨some ⟨⟨0, 0, 0⟩, 1, ⟨0, 0, 0⟩⟩, some ⟨1, ⟨0, 0, 0⟩⟩⟩⟩,
         ⟨⟨3 / 2, 0, 0⟩, some ⟨some ⟨⟨0, 0, 0⟩, 1, ⟨0, 0, 0⟩⟩, some ⟨1, ⟨0, 0, 0⟩⟩⟩⟩] 0 =
      [⟨⟨-(1 / 4), 0, 0⟩, some ⟨some ⟨⟨0, 0, 0⟩, 1, ⟨0, 0, 0⟩⟩, some ⟨1, ⟨0, 0, 0⟩⟩⟩⟩,
       ⟨⟨7 / 4, 0, 0⟩, some ⟨some ⟨⟨0, 0, 0⟩, 1, ⟨0, 0, 0⟩⟩, some ⟨1, ⟨0, 0, 0⟩⟩⟩⟩] ∧
      stepPhysics
          [⟨⟨0, 0, 0⟩, some ⟨some ⟨⟨0, 0, 0⟩, 1, ⟨0, 0, 0⟩⟩, some ⟨1, ⟨0, 0, 0⟩⟩⟩⟩,
           ⟨⟨3 / 2, 0, 0⟩, some ⟨some ⟨⟨-1, 0, 0⟩, 1, ⟨0, 0, 0⟩⟩, some ⟨1, ⟨0, 0, 0⟩⟩⟩⟩] 0 =
        [⟨⟨-(1 / 4), 0, 0⟩, some ⟨some ⟨⟨-(3 / 4), 0, 0⟩, 1, ⟨0, 0, 0⟩⟩, some ⟨1, ⟨0, 0, 0⟩⟩⟩⟩,
         ⟨⟨7 / 4, 0, 0⟩, some ⟨some ⟨⟨-(1 / 4), 0, 0⟩, 1, ⟨0, 0, 0⟩⟩, some ⟨1, ⟨0, 0, 0⟩⟩⟩⟩] := by
  constructor
  · rw [stepPhysics_pair_nonpos _ _ 0 le_rfl]
    have hd : pairDist
        ⟨⟨0, 0, 0⟩, some ⟨some ⟨⟨0, 0, 0⟩, 1, ⟨0, 0, 0⟩⟩, some ⟨1, ⟨0, 0, 0⟩⟩⟩⟩
        ⟨⟨3 / 2, 0, 0⟩, some ⟨some ⟨⟨0, 0, 0⟩, 1, ⟨0, 0, 0⟩⟩, some ⟨1, ⟨0, 0, 0⟩⟩⟩⟩
        ⟨1, ⟨0, 0, 0⟩⟩ ⟨1, ⟨0, 0, 0⟩⟩ = 3 / 2 :=
      length_eq_of_eq _ (3 / 2) (by norm_num)
        (by simp only [pairDelta, worldCenter, add, sub]; norm_num)
    have hrel : pairRelAlongNormal
        ⟨⟨0, 0, 0⟩, some ⟨some ⟨⟨0, 0, 0⟩, 1, ⟨0, 0, 0⟩⟩, some ⟨1, ⟨0, 0, 0⟩⟩⟩⟩
        ⟨⟨3 / 2, 0, 0⟩, some ⟨some ⟨⟨0, 0, 0⟩, 1, ⟨0, 0, 0⟩⟩, some ⟨1, ⟨0, 0, 0⟩⟩⟩⟩
        ⟨1, ⟨0, 0, 0⟩⟩ ⟨1, ⟨0, 0, 0⟩⟩ ⟨⟨0, 0, 0⟩, 1, ⟨0, 0, 0⟩⟩ ⟨⟨0, 0, 0⟩, 1, ⟨0, 0, 0⟩⟩ = 0 := by
      simp only [pairRelAlongNormal, collisionNormal, nudgedDelta, hd,
        pairDelta, worldCenter, add, sub, mulScalar]
      norm_num
    have hr : resolvePair
        ⟨⟨0, 0, 0⟩, some ⟨some ⟨⟨0, 0, 0⟩, 1, ⟨0, 0, 0⟩⟩, some ⟨1, ⟨0, 0, 0⟩⟩⟩⟩
        ⟨⟨3 / 2, 0, 0⟩, some ⟨some ⟨⟨0, 0, 0⟩, 1, ⟨0, 0, 0⟩⟩, some ⟨1, ⟨0, 0, 0⟩⟩⟩⟩ =
        (⟨⟨-(1 / 4), 0, 0⟩, some ⟨some ⟨⟨0, 0, 0⟩, 1, ⟨0, 0, 0⟩⟩, some ⟨1, ⟨0, 0, 0⟩⟩⟩⟩,
         ⟨⟨7 / 4, 0, 0⟩, some ⟨some ⟨⟨0, 0, 0⟩, 1, ⟨0, 0, 0⟩⟩, some ⟨1, ⟨0, 0, 0⟩⟩⟩⟩) := by
      norm_num [resolvePair, hd, hrel, pairCorrection, collisionNormal,
        nudgedDelta, pairDelta, worldCenter, restitution, add, sub, mulScalar]
    rw [hr]
  · rw [stepPhysics_pair_nonpos _ _ 0 le_rfl]
    have hd : pairDist
        ⟨⟨0, 0, 0⟩, some ⟨some ⟨⟨0, 0, 0⟩, 1, ⟨0, 0, 0⟩⟩, some ⟨1, ⟨0, 0, 0⟩⟩⟩⟩
        ⟨⟨3 / 2, 0, 0⟩, some ⟨some ⟨⟨-1, 0, 0⟩, 1, ⟨0, 0, 0⟩⟩, some ⟨1, ⟨0, 0, 0⟩⟩⟩⟩
        ⟨1, ⟨0, 0, 0⟩⟩ ⟨1, ⟨0, 0, 0⟩⟩ = 3 / 2 :=
      length_eq_of_eq _ (3 / 2) (by norm_num)
        (by simp only [pairDelta, worldCenter, add, sub]; norm_num)
    have hrel : pairRelAlongNormal
        ⟨⟨0, 0, 0⟩, some ⟨some ⟨⟨0, 0, 0⟩, 1, ⟨0, 0, 0⟩⟩, some ⟨1, ⟨0, 0, 0⟩⟩⟩⟩
        ⟨⟨3 / 2, 0, 0⟩, some ⟨some ⟨⟨-1, 0, 0⟩, 1, ⟨0, 0, 0⟩⟩, some ⟨1, ⟨0, 0, 0⟩⟩⟩⟩
        ⟨1, ⟨0, 0, 0⟩⟩ ⟨1, ⟨0, 0, 0⟩⟩ ⟨⟨0, 0, 0⟩, 1, ⟨0, 0, 0⟩⟩ ⟨⟨-1, 0, 0⟩, 1, ⟨0, 0, 0⟩⟩ = -1 := by
      simp only [pairRelAlongNormal, collisionNormal, nudgedDelta, hd,
        pairDelta, worldCenter, add, sub, mulScalar]
      norm_num
    have hr : resolvePair
        ⟨⟨0, 0, 0⟩, some ⟨some ⟨⟨0, 0, 0⟩, 1, ⟨0, 0, 0⟩⟩, some ⟨1, ⟨0, 0, 0⟩⟩⟩⟩
        ⟨⟨3 / 2, 0, 0⟩, some ⟨some ⟨⟨-1, 0, 0⟩, 1, ⟨0, 0, 0⟩⟩, some ⟨1, ⟨0, 0, 0⟩⟩⟩⟩ =
        (⟨⟨-(1 / 4), 0, 0⟩, some ⟨some ⟨⟨-(3 / 4), 0, 0⟩, 1, ⟨0, 0, 0⟩⟩, some ⟨1, ⟨0, 0, 0⟩⟩⟩⟩,
         ⟨⟨7 / 4, 0, 0⟩, some ⟨some ⟨⟨-(1 / 4), 0, 0⟩, 1, ⟨0, 0, 0⟩⟩, some ⟨1, ⟨0, 0, 0⟩⟩⟩⟩) := by
      norm_num [resolvePair, hd, hrel, pairCorrection, collisionNormal,
        nudgedDelta, pairDelta, worldCenter, restitution, add, sub, mulScalar]
    rw [hr]
